import Mathlib

/-!
Shallow embedding of `src/app.py` (AI Legal Query Assistant).

Strings are modelled as `List Char` (a Python `str` is its sequence of
characters).  `str.strip`, `str.lower`, the `in` substring test and the
anchored word-bounded regex matches used by the guards are embedded as
executable functions below.  `Char.toLower` / `Char.isAlphanum` are the
ASCII restrictions of the Python (Unicode) operations; every guard
pattern and keyword in the program is ASCII, so the guards agree with
the source on all ASCII input.
-/

/-- Python `\w` word character (ASCII fragment): letters, digits, underscore. -/
def isWordChar (c : Char) : Bool :=
  c.isAlphanum || c == '_'

/-- Whitespace stripped by Python `str.strip()` (space, tab, LF, CR, VT, FF). -/
def isPySpace (c : Char) : Bool :=
  c == ' ' || c == '\t' || c == '\n' || c == '\r' ||
  c == Char.ofNat 11 || c == Char.ofNat 12

/-- Python `str.strip()`: drop whitespace at both ends. -/
def pyStrip (s : List Char) : List Char :=
  ((s.dropWhile isPySpace).reverse.dropWhile isPySpace).reverse

/-- Python `str.lower()` (ASCII fragment). -/
def pyLower (s : List Char) : List Char :=
  s.map Char.toLower

/-- Python `needle in haystack`: substring test. -/
def listInfix (needle : List Char) : List Char → Bool
  | [] => needle.isEmpty
  | c :: rest => needle.isPrefixOf (c :: rest) || listInfix needle rest

/-- `re.match(r"\b<lit>\b", s) is not None` for a literal `lit` that starts
and ends with a word character (true of all five guard patterns):
`s` starts with `lit` and the character right after it, if any, is not a
word character.  (`re.match` anchors at the start of the string; the
leading `\b` holds automatically because the first char of `lit` is a
word character.) -/
def matchWordBounded (lit s : List Char) : Bool :=
  lit.isPrefixOf s &&
    (match s.drop lit.length with
     | [] => true
     | c :: _ => !(isWordChar c))

-- ---------- Data types ----------

/-- The Groq client handle, `Groq(api_key=...)`. -/
structure Client where
  api_key : List Char
deriving DecidableEq

/-- One `{"role": ..., "content": ...}` entry of a chat payload. -/
structure ChatMessage where
  role : List Char
  content : List Char
deriving DecidableEq

/-- The payload of `client.chat.completions.create(...)`.  The sampling
temperature `0.1` is recorded exactly as tenths. -/
structure Request where
  model : List Char
  messages : List ChatMessage
  temperatureTenths : Nat
  max_tokens : Nat
deriving DecidableEq

/-- Outcome of `generate_legal_answer`: either a guard short-circuits with a
canned message (the completion client is never invoked), or the client is
invoked with a request. -/
inductive GenResult where
  | guarded (msg : List Char)
  | completion (c : Client) (r : Request)
deriving DecidableEq

/-- One FAQ entry of `FAQ_DATA`. -/
structure FAQEntry where
  question : List Char
  answer : List Char
deriving DecidableEq

-- ---------- FAQ data (src/app.py lines 26-67) ----------

def FAQ_DATA : List (List Char × List FAQEntry) :=
  [ (("Consumer Rights".data),
     [ FAQEntry.mk
         ("What can I do if a product I bought is defective and the seller refuses to replace it?".data)
         ("Generally, consumers can raise a complaint with the seller, escalate to the company, and, if unresolved, approach a consumer dispute redressal forum or similar authority. Keep all bills and written communication as proof.".data),
       FAQEntry.mk
         ("Can a shop refuse to give me a bill?".data)
         ("In many jurisdictions, sellers are expected or required to provide an invoice or bill. A bill is useful as proof of purchase in case of disputes or warranty claims.".data) ]),
    (("Employment Law".data),
     [ FAQEntry.mk
         ("Can my employer fire me without notice?".data)
         ("In many places, termination rules depend on the employment contract and local labour laws. Often there are notice-period requirements, but there can be exceptions such as misconduct or probation periods.".data),
       FAQEntry.mk
         ("Am I entitled to overtime pay?".data)
         ("Eligibility for overtime pay depends on local labour laws and the type of employment. Some workers are entitled to extra pay for hours beyond the standard work week.".data) ]),
    (("Cyber Law".data),
     [ FAQEntry.mk
         ("What should I do if someone is harassing me online?".data)
         ("You can collect evidence (screenshots, messages), block or report the account on the platform, and in serious cases consider filing a complaint with cybercrime authorities or the police.".data),
       FAQEntry.mk
         ("Is it legal to share someone’s private chat screenshots publicly?".data)
         ("Sharing private communications without consent may violate privacy laws, platform policies, or defamation laws, depending on what is shared and local regulations.".data) ]),
    (("Civil Matters".data),
     [ FAQEntry.mk
         ("What is a civil case?".data)
         ("A civil case usually involves disputes between individuals or organizations about rights, money, property, or contracts rather than crimes.".data),
       FAQEntry.mk
         ("How long do civil cases typically take?".data)
         ("Civil cases can take months or years depending on complexity, court workload, and procedural steps. Timelines vary widely by country and court.".data) ]) ]

/-- Python `dict.get(key, [])` on the (insertion-ordered) FAQ dict. -/
def dictGet : List (List Char × List FAQEntry) → List Char → List FAQEntry
  | [], _ => []
  | (k, v) :: rest, key => if key = k then v else dictGet rest key

/-- `"\n".join(lines)`. -/
def newlineJoin (lines : List (List Char)) : List Char :=
  List.intercalate ("\n".data) lines

/-- `build_faq_context` (src/app.py lines 70-80). -/
def build_faq_context (domain : List Char) : List Char :=
  let faqs := dictGet FAQ_DATA domain
  if faqs = [] then []
  else
    newlineJoin
      ((("Example FAQs and generic answers for ".data) ++ domain ++ (":".data)) ::
        faqs.flatMap (fun item =>
          [("- Q: ".data) ++ item.question, ("  A: ".data) ++ item.answer]))

-- ---------- Prompts (src/app.py lines 85-122, 169-184) ----------

def SYSTEM_PROMPT : List Char :=
  ("\nYou are a Legal Information Assistant.\n\nSTRICT RULES (follow all):\n\n1. Answer ONLY the exact question asked by the user.\n2. If the question is vague, incomplete, or lacks necessary facts:\n   - DO NOT provide a legal answer.\n   - ONLY ask the user to clarify what information is missing.\n3. DO NOT assume facts that the user has not stated.\n4. DO NOT guess jurisdiction, country, or specific laws.\n5. If the selected legal domain does not match the question, clearly point it out.\n6. Provide ONLY general legal information, never legal advice.\n7. Do NOT add extra explanations unless explicitly asked.\n8. Use simple, non-technical language.\n\nIf information is insufficient, say:\n\"It is not possible to provide an answer without more details.\"\n\n".data)

/-- Text of `USER_TEMPLATE` before the `domain` placeholder. -/
def UT_PRE : List Char :=
  ("\nUser selected legal domain: ".data)

/-- Text of `USER_TEMPLATE` between the `domain` and `question` placeholders. -/
def UT_MID : List Char :=
  ("\n\nUser question:\n\"".data)

/-- Text of `USER_TEMPLATE` after the `question` placeholder. -/
def UT_POST : List Char :=
  ("\"\n\nTASK:\n1. First, briefly restate the user\x27s question in one sentence.\n2. Answer ONLY that question.\n3. Use simple, non-technical language.\n4. If the question lacks required information, clearly state what is missing.\n5. If the domain selection appears incorrect, mention it.\n6. Do NOT include unrelated legal explanations.\n7. End with:\n".data)

/-- `USER_TEMPLATE.format(domain=..., question=...)`. -/
def user_prompt (domain question : List Char) : List Char :=
  UT_PRE ++ domain ++ UT_MID ++ question ++ UT_POST

/-- Text of `alignment_instruction` before the interpolated domain. -/
def AI_PRE : List Char :=
  ("\nIMPORTANT INSTRUCTIONS:\n- Answer ONLY the user\x27s exact question.\n- Do NOT add unrelated legal information.\n- Do NOT assume missing facts.\n- If the selected domain (".data)

/-- Text of `alignment_instruction` after the interpolated domain. -/
def AI_POST : List Char :=
  (") does not match the question, clearly say so.\n- If the information provided is insufficient, explicitly say that.\n- Use simple, non-technical language.\n".data)

/-- The `alignment_instruction` f-string of `generate_legal_answer`. -/
def alignment_instruction (domain : List Char) : List Char :=
  AI_PRE ++ domain ++ AI_POST

/-- `final_prompt = alignment_instruction + "\n\n" + user_prompt`. -/
def final_prompt (domain question : List Char) : List Char :=
  alignment_instruction domain ++ ("\n\n".data) ++ user_prompt domain question

/-- The request issued on the non-guarded path (src/app.py lines 186-194). -/
def buildRequest (domain question : List Char) : Request :=
  Request.mk ("llama-3.1-8b-instant".data)
    [ ChatMessage.mk ("system".data) SYSTEM_PROMPT,
      ChatMessage.mk ("user".data) (final_prompt domain question) ]
    1 500

-- ---------- Guards (src/app.py lines 124-167) ----------

def employment_keywords : List (List Char) :=
  [("job".data), ("company".data), ("employer".data), ("salary".data),
   ("fired".data), ("terminated".data)]

def consumer_keywords : List (List Char) :=
  [("product".data), ("order".data), ("refund".data), ("seller".data),
   ("online".data), ("damaged".data)]

/-- `domain_seems_mismatched` (src/app.py lines 124-135). -/
def domain_seems_mismatched (domain question : List Char) : Bool :=
  let q := pyLower question
  if domain = ("Consumer Rights".data) ∧ employment_keywords.any (fun k => listInfix k q) then
    true
  else if domain = ("Employment Law".data) ∧ consumer_keywords.any (fun k => listInfix k q) then
    true
  else
    false

/-- The literal cores of `generic_patterns` (each pattern is `\b<core>\b`). -/
def generic_patterns : List (List Char) :=
  [("can i take legal action".data),
   ("what are my rights".data),
   ("is this legal".data),
   ("can i sue".data),
   ("legal action".data)]

/-- Canned response of the generic-question guard (src/app.py lines 149-155). -/
def genericGuardMessage : List Char :=
  ("This question is too general to answer.\n\nPlease describe what happened, who was involved, and what issue you are facing so that general legal information can be shared.\n\nThis is general legal information, not legal advice. Please consult a qualified lawyer for your specific situation.".data)

/-- Canned response of the short-question guard (src/app.py line 158). -/
def shortQuestionMessage : List Char :=
  ("Please provide a clearer legal question with more details.".data)

/-- Text of the mismatch message before the interpolated domain. -/
def MM_PRE : List Char :=
  ("The selected domain is \x27".data)

/-- Text of the mismatch message after the interpolated domain. -/
def MM_POST : List Char :=
  ("\x27, but the question appears to relate to a different area of law.\n\nPlease select the correct legal domain or clarify your question.\n\nThis is general legal information, not legal advice.".data)

/-- Canned response of the domain-mismatch guard (src/app.py lines 162-167). -/
def mismatchMessage (domain : List Char) : List Char :=
  MM_PRE ++ domain ++ MM_POST

/-- The `for pattern in generic_patterns:` loop of `generate_legal_answer`
(src/app.py lines 147-158).  In the source the short-question check is
nested INSIDE the loop body, after the pattern test, so it is embedded at
exactly that position. -/
def guardLoop : List (List Char) → List Char → List Char → Option (List Char)
  | [], _, _ => none
  | p :: ps, normalized, question =>
    if matchWordBounded p normalized then some genericGuardMessage
    else if question = [] ∨ (pyStrip question).length < 8 then some shortQuestionMessage
    else guardLoop ps normalized question

/-- Does any generic pattern match (per `re.match`, i.e. anchored) the
trimmed lowercased question? -/
def matchesGeneric (normalized : List Char) : Bool :=
  generic_patterns.any (fun p => matchWordBounded p normalized)

/-- `generate_legal_answer` (src/app.py lines 137-206).  The completion
call is represented by the `GenResult.completion` constructor carrying the
client and the request; a `GenResult.guarded` result is returned before
any request is built, so the client is not invoked. -/
def generate_legal_answer (client : Client) (domain question : List Char) : GenResult :=
  match guardLoop generic_patterns (pyLower (pyStrip question)) question with
  | some msg => GenResult.guarded msg
  | none =>
    if domain_seems_mismatched domain question then
      GenResult.guarded (mismatchMessage domain)
    else
      GenResult.completion client (buildRequest domain question)

/-- The fixed disclaimer appended to every successful completion. -/
def DISCLAIMER : List Char :=
  ("This is general legal information, not legal advice. Please consult a qualified lawyer for your specific situation.".data)

/-- `final_answer = raw_answer.strip() + "\n\n" + disclaimer` (lines 197-204). -/
def finalAnswer (rawContent : List Char) : List Char :=
  pyStrip rawContent ++ ("\n\n".data) ++ DISCLAIMER

/-- The text shown/stored for a turn: the guard message, or the
disclaimer-augmented completion text (`raw` is the model output). -/
def renderResult (res : GenResult) (raw : List Char) : List Char :=
  match res with
  | GenResult.guarded m => m
  | GenResult.completion _ _ => finalAnswer raw

-- ---------- Startup, session state and the turn handler ----------

/-- `get_client` (src/app.py lines 11-18): reads `st.secrets["GROQ_API_KEY"]`
(modelled as a lookup in the externally supplied secrets mapping;
a missing key raises, i.e. yields the error branch) and builds the client. -/
def get_client (secrets : List (List Char × List Char)) : Except (List Char) Client :=
  match secrets.lookup ("GROQ_API_KEY".data) with
  | some k => Except.ok (Client.mk k)
  | none => Except.error ("GROQ_API_KEY missing from st.secrets".data)

/-- Process-lifetime state created at module load: the cached client. -/
structure AppState where
  client : Client
deriving DecidableEq

/-- Module-level startup (src/app.py line 21): `client = get_client()` runs
before any UI element or user turn; a missing credential is fatal here. -/
def startApp (secrets : List (List Char × List Char)) : Except (List Char) AppState :=
  (get_client secrets).map AppState.mk

/-- One chat message of `st.session_state.messages`. -/
structure Message where
  role : List Char
  content : List Char
deriving DecidableEq

/-- The `if user_input:` turn handler (src/app.py lines 249-263): append the
user message, compute `generate_legal_answer(domain, user_input)` — the
session history is in scope but never passed to it — and append the
assistant message.  `raw` is the model output consumed on the non-guarded
path.  Returns the new history and the generation outcome. -/
def runTurn (st : AppState) (history : List Message) (domain question raw : List Char) :
    List Message × GenResult :=
  let res := generate_legal_answer st.client domain question
  (history ++ [Message.mk ("user".data) question,
               Message.mk ("assistant".data) (renderResult res raw)],
   res)

/-- Session transitions: a user turn (src/app.py lines 249-263) or the
"Clear conversation" button (lines 266-268). -/
inductive SessionStep (st : AppState) : List Message → List Message → Prop
  | turn (history : List Message) (domain question raw : List Char) :
      SessionStep st history (runTurn st history domain question raw).1
  | clear (history : List Message) : SessionStep st history []

/-- Histories reachable from the initial empty message list. -/
inductive ReachableHistory (st : AppState) : List Message → Prop
  | init : ReachableHistory st []
  | step {s t : List Message} :
      ReachableHistory st s → SessionStep st s t → ReachableHistory st t

/-- The history is a sequence of user/assistant pairs: roles alternate
starting with "user" and each user message is followed by exactly one
assistant message. -/
def rolesOk : List Message → Bool
  | [] => true
  | [_] => false
  | u :: a :: rest =>
    decide (u.role = ("user".data)) && decide (a.role = ("assistant".data)) && rolesOk rest

-- ---------- Sample inputs used by witnesses and counterexamples ----------

def someClient : Client :=
  Client.mk ("gsk-local-test".data)

def someState : AppState :=
  AppState.mk someClient

/-- The block a registered FAQ pair contributes to the context, as it
appears in `build_faq_context`: the `- Q:` line, a newline, the `  A:` line. -/
def pairBlock (e : FAQEntry) : List Char :=
  ("- Q: ".data) ++ e.question ++ ("\n".data) ++ ("  A: ".data) ++ e.answer

/-- `needles` occur as substrings of the haystack, in order, without
overlap: each is found strictly after the end of the previous one. -/
def dropAfterMatch (needle : List Char) : List Char → Option (List Char)
  | [] => if needle = [] then some [] else none
  | c :: rest =>
    if needle.isPrefixOf (c :: rest) then some ((c :: rest).drop needle.length)
    else dropAfterMatch needle rest

def containsInOrder : List (List Char) → List Char → Bool
  | [], _ => true
  | b :: bs, s =>
    match dropAfterMatch b s with
    | some s2 => containsInOrder bs s2
    | none => false

/-- A non-guarded sample question used by the C2 counterexample. -/
def sampleCyberQuestion : List Char :=
  ("what should i do if someone keeps harassing me online".data)

-- ---------- Helper lemmas ----------

theorem listInfix_of_prefix {n h : List Char} (hp : n <+: h) : listInfix n h = true := by
  cases h with
  | nil =>
    have hn : n = [] := List.prefix_nil.mp hp
    subst hn; rfl
  | cons c rest =>
    have hb : n.isPrefixOf (c :: rest) = true := List.isPrefixOf_iff_prefix.mpr hp
    simp [listInfix, hb]

theorem listInfix_of_infix {n h : List Char} (hinf : n <:+: h) : listInfix n h = true := by
  obtain ⟨s, t, rfl⟩ := hinf
  induction s with
  | nil =>
    simp only [List.nil_append]
    exact listInfix_of_prefix ⟨t, rfl⟩
  | cons a s ih =>
    rw [List.append_assoc] at ih
    simp only [List.cons_append, List.append_assoc, listInfix]
    simp [ih]

theorem matchWordBounded_length {p s : List Char} (h : matchWordBounded p s = true) :
    p.length ≤ s.length := by
  unfold matchWordBounded at h
  rw [Bool.and_eq_true] at h
  exact (List.isPrefixOf_iff_prefix.mp h.1).length_le

/-- Every generic pattern is at least 9 characters long, so any question it
matches has a trimmed length of at least 9. -/
theorem matchesGeneric_min_length {q : List Char}
    (h : matchesGeneric (pyLower (pyStrip q)) = true) : 9 ≤ (pyStrip q).length := by
  unfold matchesGeneric at h
  rw [List.any_eq_true] at h
  obtain ⟨p, hp, hm⟩ := h
  have h1 : p.length ≤ (pyLower (pyStrip q)).length := matchWordBounded_length hm
  have h2 : (pyLower (pyStrip q)).length = (pyStrip q).length := by simp [pyLower]
  have h3 : 9 ≤ p.length := by
    simp only [generic_patterns, List.mem_cons, List.not_mem_nil, or_false] at hp
    rcases hp with rfl | rfl | rfl | rfl | rfl <;> decide
  omega

/-- A question of trimmed length at least 8 fails the short-question test. -/
theorem shortCond_false {q : List Char} (h : 8 ≤ (pyStrip q).length) :
    ¬(q = [] ∨ (pyStrip q).length < 8) := by
  rintro (rfl | hlt)
  · exact absurd h (by decide)
  · omega

/-- If no pattern matches and the short-question test fails, the guard loop
falls through. -/
theorem guardLoop_eq_none (ps : List (List Char)) (n q : List Char)
    (hany : ps.any (fun p => matchWordBounded p n) = false)
    (hq : ¬(q = [] ∨ (pyStrip q).length < 8)) :
    guardLoop ps n q = none := by
  induction ps with
  | nil => rfl
  | cons p ps ih =>
    rw [List.any_cons] at hany
    cases hp : matchWordBounded p n with
    | true => rw [hp] at hany; simp at hany
    | false =>
      rw [hp] at hany
      simp only [Bool.false_or] at hany
      simp [guardLoop, hp, hq, ih hany]

/-- If some pattern matches and the short-question test fails, the guard
loop returns the generic-question message. -/
theorem guardLoop_eq_generic (ps : List (List Char)) (n q : List Char)
    (hany : ps.any (fun p => matchWordBounded p n) = true)
    (hq : ¬(q = [] ∨ (pyStrip q).length < 8)) :
    guardLoop ps n q = some genericGuardMessage := by
  induction ps with
  | nil => simp at hany
  | cons p ps ih =>
    rw [List.any_cons] at hany
    cases hp : matchWordBounded p n with
    | true => simp [guardLoop, hp]
    | false =>
      rw [hp] at hany
      simp only [Bool.false_or] at hany
      simp [guardLoop, hp, hq, ih hany]

/-- If a pattern is longer than the normalized question, it cannot match. -/
theorem matchWordBounded_false_of_short {p s : List Char} (h : s.length < p.length) :
    matchWordBounded p s = false := by
  cases hm : matchWordBounded p s with
  | false => rfl
  | true => exact absurd (matchWordBounded_length hm) (by omega)

/-- A Consumer Rights question containing "fired" or "employer" trips the
domain-mismatch test. -/
theorem dsm_consumer_of_keyword {q : List Char}
    (h : listInfix ("fired".data) (pyLower q) = true ∨
         listInfix ("employer".data) (pyLower q) = true) :
    domain_seems_mismatched ("Consumer Rights".data) q = true := by
  rcases h with h | h <;>
    simp [domain_seems_mismatched, employment_keywords, h]

/-- On the non-guarded path a completion result carries exactly the cached
client the function was given. -/
theorem completion_client_eq (client : Client) (d q : List Char) (c : Client) (r : Request)
    (h : generate_legal_answer client d q = GenResult.completion c r) : c = client := by
  unfold generate_legal_answer at h
  cases hg : guardLoop generic_patterns (pyLower (pyStrip q)) q with
  | some m => rw [hg] at h; simp at h
  | none =>
    rw [hg] at h
    cases hd : domain_seems_mismatched d q with
    | true => simp [hd] at h
    | false =>
      simp only [hd, Bool.false_eq_true, if_false] at h
      injection h with h1 h2
      exact h1.symm

/-- Appending one user/assistant pair preserves the pairing invariant. -/
theorem rolesOk_append_pair : ∀ (s : List Message) (q ans : List Char),
    rolesOk s = true →
    rolesOk (s ++ [Message.mk ("user".data) q, Message.mk ("assistant".data) ans]) = true
  | [], _, _, _ => by simp [rolesOk]
  | [_], _, _, h => by simp [rolesOk] at h
  | x :: y :: rest, q, ans, h => by
    simp only [rolesOk, Bool.and_eq_true] at h
    simp only [List.cons_append, rolesOk, Bool.and_eq_true]
    obtain ⟨⟨h1, h2⟩, h3⟩ := h
    exact ⟨⟨h1, h2⟩, rolesOk_append_pair rest q ans h3⟩

-- ---------- Claim theorems ----------

set_option maxRecDepth 100000

/-- C1: For every question whose trimmed, lowercased text matches one of the
fixed generic patterns (per `re.match`, i.e. anchored at the start),
`generate_legal_answer` returns the fixed clarification message; the result
is a `GenResult.guarded` value, so the completion client is never invoked. -/
theorem c1_generic_guard_short_circuits (client : Client) (domain question : List Char)
    (h : matchesGeneric (pyLower (pyStrip question)) = true) :
    generate_legal_answer client domain question = GenResult.guarded genericGuardMessage := by
  have hlen : 9 ≤ (pyStrip question).length := matchesGeneric_min_length h
  have hq : ¬(question = [] ∨ (pyStrip question).length < 8) := shortCond_false (by omega)
  unfold generate_legal_answer
  rw [guardLoop_eq_generic generic_patterns _ _ h hq]

/-- Witness for C1 at the question `"is this legal?"`. -/
theorem c1_witness :
    generate_legal_answer someClient ("Cyber Law".data) ("is this legal?".data)
      = GenResult.guarded genericGuardMessage :=
  c1_generic_guard_short_circuits someClient ("Cyber Law".data) ("is this legal?".data)
    (by decide)

/-- C4: For every question whose trimmed text is shorter than 8 characters
(including the empty question), `generate_legal_answer` returns the fixed
short-length guard message; the result is `GenResult.guarded`, so the
completion client is never invoked. -/
theorem c4_short_question_guard (client : Client) (domain question : List Char)
    (h : (pyStrip question).length < 8) :
    generate_legal_answer client domain question = GenResult.guarded shortQuestionMessage := by
  have hm : matchWordBounded ("can i take legal action".data)
      (pyLower (pyStrip question)) = false := by
    apply matchWordBounded_false_of_short
    have hl : (pyLower (pyStrip question)).length = (pyStrip question).length := by
      simp [pyLower]
    have hp : (("can i take legal action".data) : List Char).length = 23 := by decide
    omega
  unfold generate_legal_answer
  simp only [generic_patterns, guardLoop, hm, Bool.false_eq_true, if_false]
  rw [if_pos (Or.inr h)]

/-- Witness for C4 at the question `"help"`. -/
theorem c4_witness :
    generate_legal_answer someClient ("Consumer Rights".data) ("help".data)
      = GenResult.guarded shortQuestionMessage :=
  c4_short_question_guard someClient ("Consumer Rights".data) ("help".data) (by decide)

/-- C3 counterexample: with domain "Consumer Rights", the question
`"can i sue my employer?"` contains the keyword "employer", yet
`generate_legal_answer` returns the generic-question message (the generic
guard runs first and `re.match` finds `"can i sue"` at the start), not the
domain-mismatch message — so the claim as stated is false. -/
theorem c3_counterexample :
    listInfix ("employer".data) (pyLower ("can i sue my employer?".data)) = true ∧
    generate_legal_answer someClient ("Consumer Rights".data) ("can i sue my employer?".data)
      = GenResult.guarded genericGuardMessage ∧
    genericGuardMessage ≠ mismatchMessage ("Consumer Rights".data) := by
  exact ⟨by decide, by decide, by decide⟩

/-- C3 (amended): if the question contains "fired" or "employer"
(case-insensitively), no generic pattern matches its trimmed lowercased
text and its trimmed length is at least 8 — i.e. no earlier guard claims
the turn — then with domain "Consumer Rights" the function returns the
fixed domain-mismatch message, that message names "Consumer Rights", and
the result is `GenResult.guarded`, so the completion client is never
invoked. -/
theorem c3_mismatch_guard_consumer (client : Client) (question : List Char)
    (hkw : listInfix ("fired".data) (pyLower question) = true ∨
           listInfix ("employer".data) (pyLower question) = true)
    (hng : matchesGeneric (pyLower (pyStrip question)) = false)
    (hlen : 8 ≤ (pyStrip question).length) :
    generate_legal_answer client ("Consumer Rights".data) question
      = GenResult.guarded (mismatchMessage ("Consumer Rights".data)) ∧
    listInfix ("Consumer Rights".data) (mismatchMessage ("Consumer Rights".data)) = true := by
  constructor
  · unfold generate_legal_answer
    rw [guardLoop_eq_none generic_patterns _ _ hng (shortCond_false hlen)]
    simp [dsm_consumer_of_keyword hkw]
  · decide

/-- Witness for the amended C3 at the question `"my employer fired me"`. -/
theorem c3_witness :
    generate_legal_answer someClient ("Consumer Rights".data) ("my employer fired me".data)
      = GenResult.guarded (mismatchMessage ("Consumer Rights".data)) ∧
    listInfix ("Consumer Rights".data) (mismatchMessage ("Consumer Rights".data)) = true :=
  c3_mismatch_guard_consumer someClient ("my employer fired me".data)
    (Or.inl (by decide)) (by decide) (by decide)

/-- C2 counterexample: a concrete non-guarded turn (domain "Cyber Law",
a well-formed question) whose completion request is issued, the FAQ
context for "Cyber Law" is non-empty, and yet neither that context nor
even its header line occurs anywhere in the user instruction sent to the
completion service — `build_faq_context` is never called on this path, so
the claim as stated is false. -/
theorem c2_counterexample :
    generate_legal_answer someClient ("Cyber Law".data) sampleCyberQuestion
      = GenResult.completion someClient (buildRequest ("Cyber Law".data) sampleCyberQuestion) ∧
    build_faq_context ("Cyber Law".data) ≠ [] ∧
    listInfix (build_faq_context ("Cyber Law".data))
      (final_prompt ("Cyber Law".data) sampleCyberQuestion) = false ∧
    listInfix ("Example FAQs".data)
      (final_prompt ("Cyber Law".data) sampleCyberQuestion) = false := by
  exact ⟨by decide, by decide, by decide, by decide⟩

/-- C2 (amended): for every non-guarded turn the completion request is the
fixed two-message payload whose user instruction embeds the selected
domain and the literal question as substrings; no FAQ context (and no
placeholder for it) is part of the prompt, since `build_faq_context` is
never invoked by `generate_legal_answer`. -/
theorem c2_prompt_embeds_domain_and_question (client : Client) (domain question : List Char)
    (hng : matchesGeneric (pyLower (pyStrip question)) = false)
    (hlen : 8 ≤ (pyStrip question).length)
    (hmm : domain_seems_mismatched domain question = false) :
    generate_legal_answer client domain question
      = GenResult.completion client (buildRequest domain question) ∧
    listInfix domain (final_prompt domain question) = true ∧
    listInfix question (final_prompt domain question) = true := by
  refine ⟨?_, ?_, ?_⟩
  · unfold generate_legal_answer
    rw [guardLoop_eq_none generic_patterns _ _ hng (shortCond_false hlen)]
    simp [hmm]
  · refine listInfix_of_infix ⟨AI_PRE, AI_POST ++ ("\n\n".data) ++ user_prompt domain question, ?_⟩
    simp [final_prompt, alignment_instruction, List.append_assoc]
  · refine listInfix_of_infix
      ⟨alignment_instruction domain ++ ("\n\n".data) ++ UT_PRE ++ domain ++ UT_MID, UT_POST, ?_⟩
    simp [final_prompt, user_prompt, List.append_assoc]

/-- Witness for the amended C2 at domain "Civil Matters" and a concrete
well-formed question. -/
theorem c2_witness :
    generate_legal_answer someClient ("Civil Matters".data)
        ("how long will a civil case about land take".data)
      = GenResult.completion someClient
          (buildRequest ("Civil Matters".data) ("how long will a civil case about land take".data)) ∧
    listInfix ("Civil Matters".data)
      (final_prompt ("Civil Matters".data) ("how long will a civil case about land take".data)) = true ∧
    listInfix ("how long will a civil case about land take".data)
      (final_prompt ("Civil Matters".data) ("how long will a civil case about land take".data)) = true :=
  c2_prompt_embeds_domain_and_question someClient ("Civil Matters".data)
    ("how long will a civil case about land take".data) (by decide) (by decide) (by decide)

/-- C5: whenever `generate_legal_answer` reaches the completion call (no
guard short-circuits), the rendered answer — the stripped raw completion
text with the fixed tail appended — ends with the exact disclaimer
sentence, for every possible raw model output. -/
theorem c5_disclaimer_suffix (client : Client) (domain question raw : List Char)
    (c : Client) (r : Request)
    (h : generate_legal_answer client domain question = GenResult.completion c r) :
    DISCLAIMER.isSuffixOf (renderResult (generate_legal_answer client domain question) raw)
      = true := by
  rw [h]
  show DISCLAIMER.isSuffixOf (finalAnswer raw) = true
  rw [List.isSuffixOf_iff_suffix]
  exact ⟨pyStrip raw ++ ("\n\n".data), by simp [finalAnswer, List.append_assoc]⟩

/-- Witness for C5 at a concrete non-guarded turn and raw completion. -/
theorem c5_witness :
    DISCLAIMER.isSuffixOf
      (renderResult
        (generate_legal_answer someClient ("Cyber Law".data) sampleCyberQuestion)
        ("You can report the account and keep evidence.".data)) = true :=
  c5_disclaimer_suffix someClient ("Cyber Law".data) sampleCyberQuestion
    ("You can report the account and keep evidence.".data)
    someClient (buildRequest ("Cyber Law".data) sampleCyberQuestion) (by decide)

/-- C6: for every domain present in the FAQ store, the context block
contains every registered question/answer pair, as the `- Q:`/`  A:` block
the builder prints, in registration order (non-overlapping, left to
right); for every domain not in the store the builder returns the empty
string. -/
theorem c6_faq_context_complete (domain : List Char) :
    (domain ∈ FAQ_DATA.map Prod.fst →
      containsInOrder ((dictGet FAQ_DATA domain).map pairBlock)
        (build_faq_context domain) = true) ∧
    (domain ∉ FAQ_DATA.map Prod.fst → build_faq_context domain = []) := by
  constructor
  · intro hmem
    simp only [FAQ_DATA, List.map_cons, List.map_nil, List.mem_cons,
      List.not_mem_nil, or_false] at hmem
    rcases hmem with h | h | h | h <;> subst h <;> decide
  · intro hmem
    simp only [FAQ_DATA, List.map_cons, List.map_nil, List.mem_cons,
      List.not_mem_nil, or_false, not_or] at hmem
    obtain ⟨h1, h2, h3, h4⟩ := hmem
    simp [build_faq_context, FAQ_DATA, dictGet, h1, h2, h3, h4]

/-- Witness for C6 at the domain "Employment Law". -/
theorem c6_witness :
    containsInOrder ((dictGet FAQ_DATA ("Employment Law".data)).map pairBlock)
      (build_faq_context ("Employment Law".data)) = true :=
  (c6_faq_context_complete ("Employment Law".data)).1 (by decide)

/-- C7: every reachable session history is a sequence of user/assistant
pairs — roles alternate starting with "user", and each user message is
followed by exactly one (hence at most one) assistant message — and the
clear action is available in every state and yields the empty list. -/
theorem c7_session_invariant (st : AppState) :
    (∀ s, ReachableHistory st s → rolesOk s = true) ∧
    (∀ s, SessionStep st s []) := by
  constructor
  · intro s h
    induction h with
    | init => rfl
    | step hr hs ih =>
      cases hs with
      | turn d q raw =>
        exact rolesOk_append_pair _ q
          (renderResult (generate_legal_answer st.client d q) raw) ih
      | clear => rfl
  · intro s
    exact SessionStep.clear s

/-- Witness for C7: the state reached after one concrete user turn
satisfies the pairing invariant. -/
theorem c7_witness :
    rolesOk ((runTurn someState [] ("Cyber Law".data) sampleCyberQuestion
      ("An answer.".data)).1) = true :=
  (c7_session_invariant someState).1 _
    (ReachableHistory.step ReachableHistory.init
      (SessionStep.turn [] ("Cyber Law".data) sampleCyberQuestion ("An answer.".data)))

/-- C8: when the credential is absent from the secrets, module-level
startup (`client = get_client()`) fails with an error before any turn can
run; when it is present, startup succeeds with the client built from that
key, and every completion request issued by any later turn carries exactly
that cached client. -/
theorem c8_credential_fail_fast (secrets : List (List Char × List Char)) :
    (secrets.lookup ("GROQ_API_KEY".data) = none →
      startApp secrets = Except.error ("GROQ_API_KEY missing from st.secrets".data)) ∧
    (∀ k, secrets.lookup ("GROQ_API_KEY".data) = some k →
      startApp secrets = Except.ok (AppState.mk (Client.mk k)) ∧
      ∀ (hist : List Message) (d q raw : List Char) (c : Client) (r : Request),
        (runTurn (AppState.mk (Client.mk k)) hist d q raw).2 = GenResult.completion c r →
        c = Client.mk k) := by
  constructor
  · intro h
    simp [startApp, get_client, h, Except.map]
  · intro k h
    constructor
    · simp [startApp, get_client, h, Except.map]
    · intro hist d q raw c r hres
      have hgen : generate_legal_answer (Client.mk k) d q = GenResult.completion c r := by
        simpa [runTurn] using hres
      exact completion_client_eq (Client.mk k) d q c r hgen

/-- Witness for C8: startup fails on empty secrets and succeeds when the
key is supplied. -/
theorem c8_witness :
    startApp [] = Except.error ("GROQ_API_KEY missing from st.secrets".data) ∧
    startApp [(("GROQ_API_KEY".data), ("gsk-demo".data))]
      = Except.ok (AppState.mk (Client.mk ("gsk-demo".data))) :=
  ⟨(c8_credential_fail_fast []).1 rfl,
   ((c8_credential_fail_fast [(("GROQ_API_KEY".data), ("gsk-demo".data))]).2
     ("gsk-demo".data) (by decide)).1⟩

/-- C9: `domain_seems_mismatched` returns `false` whenever the selected
domain is neither "Consumer Rights" nor "Employment Law"; in particular
the mismatch guard can never fire for "Cyber Law", "Civil Matters" or
"General / Not Sure". -/
theorem c9_mismatch_only_two_domains (domain question : List Char)
    (h1 : domain ≠ ("Consumer Rights".data))
    (h2 : domain ≠ ("Employment Law".data)) :
    domain_seems_mismatched domain question = false := by
  simp [domain_seems_mismatched, h1, h2]

/-- Witness for C9 at domain "Cyber Law" and a keyword-laden question. -/
theorem c9_witness :
    domain_seems_mismatched ("Cyber Law".data)
      ("my employer fired me over an online refund order".data) = false :=
  c9_mismatch_only_two_domains ("Cyber Law".data)
    ("my employer fired me over an online refund order".data) (by decide) (by decide)

/-- C10: the outcome of a turn — the guard decision and, on the
non-guarded path, the full request payload (model identifier, system and
user messages, temperature, max tokens, carried client) — is a function of
the selected domain and the question alone: it is identical across any two
session histories and any two model outputs, because the turn handler
never passes the history (or anything else) into `generate_legal_answer`
or the prompt construction. -/
theorem c10_history_noninterference (st : AppState) (h1 h2 : List Message)
    (domain question raw1 raw2 : List Char) :
    (runTurn st h1 domain question raw1).2 = (runTurn st h2 domain question raw2).2 := rfl
